import Mathlib

/-!
# Snapshot Debugger CLI — verification of the breakpoint-setting pipeline

A shallow embedding of the `set_snapshot` command of the snapshot-debugger
CLI (`cli.py`, `set_snapshot_command.py`) together with spec-modelled
versions of the collaborator functions from `breakpoint_utils` /
`command_utils` that the repository excerpt calls but does not contain
(location parser, breakpoint-id allocator, breakpoint normalizer,
debuggee validation).

The embedding makes the command's externally visible behaviour explicit:
every store access and every user-facing message becomes an `Event` in a
trace, and the process exit code is computed from the command outcome the
same way `cli.py`'s `__main__` block does.
-/

namespace SnapshotDebugger

/-- A parsed source location, the result of parsing a `FILE:LINE` string. -/
structure Location where
  path : String
  line : Nat
  deriving DecidableEq, Repr

/-- Modelled from the spec: `breakpoint_utils.parse_and_validate_location`
is not in the excerpt.  §4.1: the parser "splits on the last colon".
Splits a character list at the last occurrence of `':'`, returning the
part before it and the part after it, or `none` when no colon occurs. -/
def splitOnLastColon : List Char → Option (List Char × List Char)
  | [] => none
  | c :: rest =>
    match splitOnLastColon rest with
    | some (pre, suf) => some (c :: pre, suf)
    | none => if c = ':' then some ([], rest) else none

/-- Modelled from the spec: §4.1 "the suffix must parse as a positive
integer".  Parses a non-empty all-digit character list as a decimal
natural number. -/
def decimalToNat? (cs : List Char) : Option Nat :=
  if cs = [] then none
  else if cs.all (fun c => c.isDigit) then
    some (cs.foldl (fun acc c => acc * 10 + (c.toNat - 48)) 0)
  else none

/-- Modelled from the spec: `breakpoint_utils.parse_and_validate_location`
is not in the excerpt.  §4.1: splits on the last colon; the prefix must
be non-empty and is the path, the suffix must parse as a positive integer
and is the line; on any failure (no colon, empty path, non-positive or
non-integer line) returns the invalid sentinel `none`. -/
def parse_and_validate_location (s : String) : Option Location :=
  match splitOnLastColon s.data with
  | none => none
  | some (pre, suf) =>
    match decimalToNat? suf with
    | none => none
    | some n =>
      if pre ≠ [] ∧ 0 < n then some ⟨String.mk pre, n⟩ else none

/-- A value stored under one key of the breakpoint record written by
`set_snapshot`.  `serverTimestamp` is the magic Firebase server value
`\x7b'.sv': 'timestamp'\x7d` from `set_snapshot_command.py` line 108,
resolved server-side to epoch milliseconds at commit time. -/
inductive FieldValue where
  | str (s : String)
  | strList (l : List String)
  | loc (l : Location)
  | serverTimestamp
  deriving DecidableEq, Repr

/-- An externally visible action of a CLI invocation: a store access or a
message shown to the user. -/
inductive Event where
  | storeGetDebuggee (debuggeeId : String)
  | storeSet (path : String) (data : List (String × FieldValue))
  | userError (msg : String)
  | userNormal (msg : String)
  | printJson
  | argsParserError (msg : String)
  | printStderr (msg : String)
  deriving DecidableEq, Repr

/-- The `args` namespace produced by argparse for the `set_snapshot`
subcommand (`register`, `set_snapshot_command.py` lines 77-89):
`location` is positional, `--condition` defaults to `None`, repeated
`--expression` accumulates into a list that is `None` when never given. -/
structure Args where
  debuggee_id : String
  location : String
  condition : Option String
  expression : Option (List String)
  format : String
  deriving DecidableEq, Repr

/-- Python truthiness of `args.condition` (`if args.condition:`):
true exactly for a present, non-empty string. -/
def condTruthy : Option String → Bool
  | none => false
  | some s => s ≠ ""

/-- Python truthiness of `args.expression` (`if args.expression:`):
true exactly for a present, non-empty list. -/
def exprTruthy : Option (List String) → Bool
  | none => false
  | some l => l ≠ []

/-- Results of the external collaborator calls made during one
`set_snapshot` invocation, abstracted as an oracle: whether the debuggee
id validates, the account used for `userEmail`, what
`get_new_breakpoint_id` returns (`none` is its failure sentinel), and
whether `normalize_breakpoint` succeeds on the value echoed back by the
store write. -/
structure Oracle where
  debuggeeValid : Bool
  account : String
  allocResult : Option String
  normalizeOk : Bool
  deriving DecidableEq, Repr

/-- How one command invocation ends: normal return, `SilentlyExitError`
raised, or an argparse `error()` call (which exits the process with
status 2). -/
inductive CmdOutcome where
  | ok
  | silentExit
  | usageExit
  deriving DecidableEq, Repr

/-- `CREATE_FAILED_MESSAGE` of `set_snapshot_command.py`. -/
def CREATE_FAILED_MESSAGE : String :=
  "An unexpected error occurred while trying to set the  snapshot."

/-- `CREATE_SUCCESS_MESSAGE` of `set_snapshot_command.py`, already
instantiated with the breakpoint id. -/
def createSuccessMessage (breakpointId : String) : String :=
  "Successfully created snapshot with id: " ++ breakpointId

/-- Modelled from the spec: `breakpoint_utils.LOCATION_ERROR_MSG` is not
in the excerpt; it is the user-facing invalid-location diagnostic. -/
def LOCATION_ERROR_MSG : String :=
  "Invalid location, expected FILE:LINE"

/-- Modelled from the spec: the diagnostic `command_utils.validate_debuggee_id`
(not in the excerpt) emits when the debuggee id does not exist (§4.5, §7
`NotFound`). -/
def DEBUGGEE_NOT_FOUND_MESSAGE : String :=
  "Debuggee id not found"

/-- Modelled from the spec: the user-facing diagnostic
`breakpoint_utils.get_new_breakpoint_id` (not in the excerpt) emits when
allocation fails (§4.2 "Returns nil/error sentinel plus a user-facing
diagnostic"). -/
def ALLOC_FAILED_MESSAGE : String :=
  "Failed to allocate a new breakpoint id"

/-- The breakpoint record assembled by `SetSnapshotCommand.cmd` lines
103-114 before the id is attached: `location` and `userEmail` first, then
the server-timestamp sentinel for `createTimeUnixMsec`, then `condition`
only if truthy, then `expressions` only if truthy. -/
def buildSnapshotData (location : Location) (account : String)
    (condition : Option String) (expression : Option (List String)) :
    List (String × FieldValue) :=
  [("location", FieldValue.loc location), ("userEmail", FieldValue.str account),
    ("createTimeUnixMsec", FieldValue.serverTimestamp)]
  ++ (if condTruthy condition then
        [("condition", FieldValue.str (condition.getD ""))] else [])
  ++ (if exprTruthy expression then
        [("expressions", FieldValue.strList (expression.getD []))] else [])

/-- The store path written by `cmd` line 123:
`breakpoints/` debuggee id `/active/` breakpoint id. -/
def activePath (debuggeeId breakpointId : String) : String :=
  "breakpoints/" ++ debuggeeId ++ "/active/" ++ breakpointId

/-- `SetSnapshotCommand.cmd` (`set_snapshot_command.py` lines 91-136) as a
trace-producing function.  It follows the source line by line:
validate the debuggee id (store lookup, modelled from §4.5; on failure a
user error and `SilentlyExitError`), parse the location (on failure
`args_parser.error`, which exits with usage status), build the record,
allocate an id (on `None` a bare `return`), write the record to the
active path, normalize the echoed value (on `None` print
`CREATE_FAILED_MESSAGE` and raise `SilentlyExitError`), then print the
result in the requested format. -/
def cmd (args : Args) (o : Oracle) : List Event × CmdOutcome :=
  let vEvents := [Event.storeGetDebuggee args.debuggee_id]
  if o.debuggeeValid = false then
    (vEvents ++ [Event.userError DEBUGGEE_NOT_FOUND_MESSAGE], CmdOutcome.silentExit)
  else
    match parse_and_validate_location args.location with
    | none =>
      (vEvents ++ [Event.argsParserError LOCATION_ERROR_MSG], CmdOutcome.usageExit)
    | some location =>
      let snapshotData :=
        buildSnapshotData location o.account args.condition args.expression
      match o.allocResult with
      | none =>
        (vEvents ++ [Event.userError ALLOC_FAILED_MESSAGE], CmdOutcome.ok)
      | some breakpointId =>
        let data := snapshotData ++ [("id", FieldValue.str breakpointId)]
        let path := activePath args.debuggee_id breakpointId
        let wEvents := vEvents ++ [Event.storeSet path data]
        if o.normalizeOk = false then
          (wEvents ++ [Event.userError CREATE_FAILED_MESSAGE], CmdOutcome.silentExit)
        else if args.format = "json" ∨ args.format = "pretty-json" then
          (wEvents ++ [Event.printJson], CmdOutcome.ok)
        else
          (wEvents ++ [Event.userNormal (createSuccessMessage breakpointId)],
            CmdOutcome.ok)

/-- The message `cli.py` line 59-61 prints to stderr when argparse bound
no subcommand. -/
def MISSING_ARG_MESSAGE : String :=
  "Missing required argument, please specify --help for more information"

/-- What argparse handed to `main`: either no subcommand was selected (no
`func` attribute bound) or the `set_snapshot` subcommand with its
arguments. -/
inductive ParsedArgs where
  | noCommand
  | setSnapshot (args : Args)
  deriving DecidableEq, Repr

/-- `main` of `cli.py` lines 34-68: with no subcommand it prints the
missing-argument message to stderr and raises `SilentlyExitError`;
otherwise it dispatches to the selected command. -/
def mainRun (pa : ParsedArgs) (o : Oracle) : List Event × CmdOutcome :=
  match pa with
  | ParsedArgs.noCommand =>
    ([Event.printStderr MISSING_ARG_MESSAGE], CmdOutcome.silentExit)
  | ParsedArgs.setSnapshot args => cmd args o

/-- The process exit code produced by the `__main__` block of `cli.py`
lines 71-75: a normal return exits 0, `SilentlyExitError` is caught and
exits 1, and an argparse `error()` call has already exited with 2. -/
def exitCode : CmdOutcome → Nat
  | CmdOutcome.ok => 0
  | CmdOutcome.silentExit => 1
  | CmdOutcome.usageExit => 2

/-- The full process: parse args, run, map the outcome to an exit code. -/
def processRun (pa : ParsedArgs) (o : Oracle) : List Event × Nat :=
  let r := mainRun pa o
  (r.1, exitCode r.2)

/-- The `storeSet` events of a trace, projected to path and data. -/
def storeSets (events : List Event) : List (String × List (String × FieldValue)) :=
  events.filterMap fun e =>
    match e with
    | Event.storeSet path data => some (path, data)
    | _ => none

/-- The two storage namespaces a breakpoint record can live in
(§3: "active" or "final", a two-state lifecycle). -/
inductive StoreNamespace where
  | active
  | final
  deriving DecidableEq, Repr

/-- Modelled from the spec: the raw breakpoint mapping as read back from
the store (`breakpoint_utils.normalize_breakpoint`'s input is not in the
excerpt).  §4.3: fields may be "absent entirely when not yet set", so
every field is optional; a committed record's server timestamp has
already been resolved to epoch milliseconds. -/
structure RawBreakpoint where
  id : Option String
  location : Option Location
  condition : Option String
  expressions : Option (List String)
  userEmail : Option String
  createTimeUnixMsec : Option Nat
  isFinalState : Option Bool
  deriving DecidableEq, Repr

/-- Modelled from the spec: the canonical breakpoint entity produced by
the normalizer (§3, §4.3): sequence-typed fields are "always an explicit
empty sequence" when missing, `isFinalState` is definite. -/
structure CanonicalBreakpoint where
  id : String
  location : Option Location
  condition : Option String
  expressions : List String
  userEmail : Option String
  createTimeUnixMsec : Option Nat
  isFinalState : Bool
  deriving DecidableEq, Repr

/-- Modelled from the spec: the three possible results of normalization
(§4.3): "not found" for a nil input, "malformed" for a record missing the
required `id`, otherwise the canonical entity. -/
inductive NormalizeResult where
  | notFound
  | malformed
  | ok (bp : CanonicalBreakpoint)
  deriving DecidableEq, Repr

/-- Modelled from the spec: `breakpoint_utils.normalize_breakpoint` is
not in the excerpt.  §4.3: input is the raw mapping (`none` when not
found) plus the namespace it was read from; output has `isFinalState`
set according to the namespace, optional sequence fields defaulted to an
explicit empty sequence, a missing required `id` yields a distinguishable
"malformed" result, and a nil input yields "not found". -/
def normalize_breakpoint (raw : Option RawBreakpoint) (ns : StoreNamespace) :
    NormalizeResult :=
  match raw with
  | none => NormalizeResult.notFound
  | some r =>
    match r.id with
    | none => NormalizeResult.malformed
    | some i =>
      NormalizeResult.ok
        { id := i
          location := r.location
          condition := r.condition
          expressions := r.expressions.getD []
          userEmail := r.userEmail
          createTimeUnixMsec := r.createTimeUnixMsec
          isFinalState := ns = StoreNamespace.final }

/-- Re-reads a canonical breakpoint as a raw store mapping: every
canonical field is physically present.  Used to state idempotence of the
normalizer across its raw-in / canonical-out typing. -/
def canonicalToRaw (bp : CanonicalBreakpoint) : RawBreakpoint :=
  { id := some bp.id
    location := bp.location
    condition := bp.condition
    expressions := some bp.expressions
    userEmail := bp.userEmail
    createTimeUnixMsec := bp.createTimeUnixMsec
    isFinalState := some bp.isFinalState }

/-- The namespace a breakpoint is stored under, per §3: final records in
"final", others in "active". -/
def namespaceOf (bp : CanonicalBreakpoint) : StoreNamespace :=
  if bp.isFinalState then StoreNamespace.final else StoreNamespace.active

/-- One compare-and-swap attempt against the allocator's counter path:
which allocator issued it and the counter value it expects. -/
structure CasOp where
  allocId : Nat
  expected : Nat
  deriving DecidableEq, Repr

/-- Modelled from the spec: the store's conditional-write coordination
used by `breakpoint_utils.get_new_breakpoint_id` (not in the excerpt).
§4.2/§5: each CAS is atomic; an arbitrary interleaving of the attempts
of the racing allocators is a list of `CasOp`s applied in schedule
order.  An attempt succeeds exactly when its expected value matches the
counter, in which case the counter advances and the attempt claims the
new sequence value.  Returns the final counter and the successful claims
`(allocId, claimed sequence value)` in schedule order. -/
def runCasOps : Nat → List CasOp → Nat × List (Nat × Nat)
  | c, [] => (c, [])
  | c, op :: rest =>
    if op.expected = c then
      let r := runCasOps (c + 1) rest
      (r.1, (op.allocId, c + 1) :: r.2)
    else
      runCasOps c rest

/-- Modelled from the spec: §4.2 "Proposes `candidate = prefix +
next_sequence`".  Renders the claimed sequence value in decimal after a
fixed stem. -/
def mkBreakpointId (n : Nat) : String :=
  "b-" ++ String.mk (((Nat.digits 10 n).reverse).map Nat.digitChar)

/-- The value of a decimal digit character, inverse of `Nat.digitChar`
on digits below 10. -/
def charToDigitVal (c : Char) : Nat :=
  c.toNat - 48

/-- Recovers the sequence value from a rendered breakpoint id; a left
inverse of `mkBreakpointId`. -/
def seqOfBreakpointId (s : String) : Nat :=
  Nat.ofDigits 10 (((s.data.drop 2).map charToDigitVal).reverse)

end SnapshotDebugger

namespace SnapshotDebugger

/-- `Nat.digitChar` is inverted by `charToDigitVal` on digits below 10. -/
lemma charToDigitVal_digitChar : ∀ d, d < 10 → charToDigitVal (Nat.digitChar d) = d := by
  decide

/-- `seqOfBreakpointId` recovers the sequence value of a rendered id. -/
lemma seqOf_mkBreakpointId (n : Nat) : seqOfBreakpointId (mkBreakpointId n) = n := by
  have hdrop : (mkBreakpointId n).data.drop 2
      = (Nat.digits 10 n).reverse.map Nat.digitChar := rfl
  have hmap : (Nat.digits 10 n).map (charToDigitVal ∘ Nat.digitChar)
      = Nat.digits 10 n := by
    conv_rhs => rw [← List.map_id (Nat.digits 10 n)]
    refine List.map_congr_left fun d hd => ?_
    exact charToDigitVal_digitChar d (Nat.digits_lt_base (by norm_num) hd)
  unfold seqOfBreakpointId
  rw [hdrop]
  simp only [List.map_reverse, List.reverse_reverse, List.map_map]
  rw [hmap, Nat.ofDigits_digits]

/-- Distinct sequence values render to distinct breakpoint ids. -/
lemma mkBreakpointId_injective : Function.Injective mkBreakpointId := by
  intro m n h
  have h2 := congrArg seqOfBreakpointId h
  rwa [seqOf_mkBreakpointId, seqOf_mkBreakpointId] at h2

/-- Every sequence value claimed by a successful CAS in a schedule run
from counter `c` exceeds `c`. -/
lemma runCasOps_claims_gt (c : Nat) (ops : List CasOp) :
    ∀ p ∈ (runCasOps c ops).2, c < p.2 := by
  induction ops generalizing c with
  | nil => intro p hp; simp [runCasOps] at hp
  | cons op rest ih =>
    intro p hp
    by_cases he : op.expected = c
    · simp only [runCasOps, he, if_pos, List.mem_cons] at hp
      rcases hp with h1 | h2
      · subst h1; exact Nat.lt_succ_self c
      · exact Nat.lt_of_succ_lt (ih (c + 1) p h2)
    · simp only [runCasOps, he, if_neg, not_false_iff] at hp
      exact ih c p hp

/-- The sequence values claimed by the successful CAS attempts of a
schedule are strictly increasing in schedule order. -/
lemma runCasOps_pairwise_lt (c : Nat) (ops : List CasOp) :
    ((runCasOps c ops).2.map Prod.snd).Pairwise (· < ·) := by
  induction ops generalizing c with
  | nil => simp [runCasOps]
  | cons op rest ih =>
    by_cases he : op.expected = c
    · simp only [runCasOps, he, if_pos, List.map_cons, List.pairwise_cons]
      refine ⟨fun v hv => ?_, ih (c + 1)⟩
      obtain ⟨p, hp, rfl⟩ := List.mem_map.1 hv
      exact Nat.lt_of_succ_lt_succ (Nat.succ_lt_succ (runCasOps_claims_gt (c + 1) rest p hp))
    · simp only [runCasOps, he, if_neg, not_false_iff]
      exact ih c

example : runCasOps 0 [⟨1, 0⟩, ⟨2, 0⟩, ⟨2, 1⟩] = (2, [(1, 1), (2, 2)]) := by decide

/-- Every store write performed by `cmd` is the single write of the
assembled snapshot record to the active path of the allocated id; in
particular a write happens only after the location parsed and an id was
allocated. -/
lemma storeSets_cmd (args : Args) (o : Oracle) (path : String)
    (data : List (String × FieldValue))
    (h : (path, data) ∈ storeSets (cmd args o).1) :
    ∃ l bid, parse_and_validate_location args.location = some l ∧
      o.allocResult = some bid ∧
      path = activePath args.debuggee_id bid ∧
      data = buildSnapshotData l o.account args.condition args.expression
        ++ [("id", FieldValue.str bid)] := by
  cases hv : o.debuggeeValid with
  | false => simp [cmd, hv, storeSets] at h
  | true =>
    cases hl : parse_and_validate_location args.location with
    | none => simp [cmd, hv, hl, storeSets] at h
    | some l =>
      cases hb : o.allocResult with
      | none => simp [cmd, hv, hl, hb, storeSets] at h
      | some bid =>
        cases hn : o.normalizeOk with
        | false =>
          simp [cmd, hv, hl, hb, hn, storeSets] at h
          exact ⟨l, bid, rfl, rfl, h.1, h.2⟩
        | true =>
          by_cases hf : args.format = "json" ∨ args.format = "pretty-json"
          · simp [cmd, hv, hl, hb, hn, hf, storeSets] at h
            exact ⟨l, bid, rfl, rfl, h.1, h.2⟩
          · simp [cmd, hv, hl, hb, hn, hf, storeSets] at h
            exact ⟨l, bid, rfl, rfl, h.1, h.2⟩

/-- The written record stores the server-timestamp sentinel under
`createTimeUnixMsec`. -/
lemma lookup_createTime (l : Location) (account : String) (cond : Option String)
    (expr : Option (List String)) (bid : String) :
    List.lookup "createTimeUnixMsec"
      (buildSnapshotData l account cond expr ++ [("id", FieldValue.str bid)])
      = some FieldValue.serverTimestamp := by
  unfold buildSnapshotData
  cases hc : condTruthy cond <;> cases he : exprTruthy expr <;>
    simp [List.lookup]

/-- The written record's `condition` key is present exactly when the
condition argument is truthy, and then holds that condition. -/
lemma lookup_condition (l : Location) (account : String) (cond : Option String)
    (expr : Option (List String)) (bid : String) :
    List.lookup "condition"
      (buildSnapshotData l account cond expr ++ [("id", FieldValue.str bid)])
      = if condTruthy cond then some (FieldValue.str (cond.getD "")) else none := by
  unfold buildSnapshotData
  cases hc : condTruthy cond <;> cases he : exprTruthy expr <;>
    simp [List.lookup]

/-- The written record's `expressions` key is present exactly when the
expression argument is truthy, and then holds those expressions. -/
lemma lookup_expressions (l : Location) (account : String) (cond : Option String)
    (expr : Option (List String)) (bid : String) :
    List.lookup "expressions"
      (buildSnapshotData l account cond expr ++ [("id", FieldValue.str bid)])
      = if exprTruthy expr then some (FieldValue.strList (expr.getD [])) else none := by
  unfold buildSnapshotData
  cases hc : condTruthy cond <;> cases he : exprTruthy expr <;>
    simp [List.lookup]

/-- In the written record, only the `createTimeUnixMsec` key carries the
server-timestamp sentinel. -/
lemma written_sentinel_unique (l : Location) (account : String)
    (cond : Option String) (expr : Option (List String)) (bid : String)
    (k : String) (v : FieldValue)
    (hmem : (k, v) ∈ buildSnapshotData l account cond expr
      ++ [("id", FieldValue.str bid)])
    (hv : v = FieldValue.serverTimestamp) : k = "createTimeUnixMsec" := by
  subst hv
  unfold buildSnapshotData at hmem
  cases hc : condTruthy cond <;> cases he : exprTruthy expr <;>
    simp [hc, he] at hmem <;> exact hmem

example : parse_and_validate_location "main.py:10" = some ⟨"main.py", 10⟩ := by
  decide

example : parse_and_validate_location "C:\\x\\y.py:7" = some ⟨"C:\\x\\y.py", 7⟩ := by
  decide

example : parse_and_validate_location ":5" = none := by decide

/-- C1 (counterexample): in an invocation where breakpoint id allocation
fails, the allocator's user-facing diagnostic is emitted, yet the process
exit code is 0 — `cmd` merely returns at line 120, no `SilentlyExitError`
reaches the `__main__` handler, so the exit is not non-zero as claimed. -/
theorem C1_counterexample :
    (Oracle.mk true "a@b.c" none true).allocResult = none ∧
    Event.userError ALLOC_FAILED_MESSAGE ∈
      (processRun
        (ParsedArgs.setSnapshot (Args.mk "d" "main.py:1" none none "default"))
        (Oracle.mk true "a@b.c" none true)).1 ∧
    (processRun
      (ParsedArgs.setSnapshot (Args.mk "d" "main.py:1" none none "default"))
      (Oracle.mk true "a@b.c" none true)).2 = 0 := by
  decide

/-- C1 (amended): when `get_new_breakpoint_id` returns the nil sentinel,
the command aborts immediately — the allocator's user-facing diagnostic
has been emitted and no store write happens — but the process exits with
code 0, not a non-zero code: `cmd` returns without raising, so the
`__main__` handler never runs `sys.exit(1)`. -/
theorem C1_alloc_failure_aborts_with_exit_zero (args : Args) (o : Oracle)
    (l : Location) (hv : o.debuggeeValid = true)
    (hp : parse_and_validate_location args.location = some l)
    (ha : o.allocResult = none) :
    Event.userError ALLOC_FAILED_MESSAGE ∈ (cmd args o).1 ∧
    storeSets (cmd args o).1 = [] ∧
    (cmd args o).2 = CmdOutcome.ok ∧
    (processRun (ParsedArgs.setSnapshot args) o).2 = 0 := by
  simp [cmd, hv, hp, ha, storeSets, processRun, mainRun, exitCode]

/-- C1 witness: the amended theorem applied to a concrete failing
allocation. -/
theorem C1_alloc_failure_witness :
    Event.userError ALLOC_FAILED_MESSAGE ∈
      (cmd (Args.mk "d" "main.py:1" none none "default")
        (Oracle.mk true "a@b.c" none true)).1 ∧
    storeSets (cmd (Args.mk "d" "main.py:1" none none "default")
      (Oracle.mk true "a@b.c" none true)).1 = [] ∧
    (cmd (Args.mk "d" "main.py:1" none none "default")
      (Oracle.mk true "a@b.c" none true)).2 = CmdOutcome.ok ∧
    (processRun
      (ParsedArgs.setSnapshot (Args.mk "d" "main.py:1" none none "default"))
      (Oracle.mk true "a@b.c" none true)).2 = 0 :=
  C1_alloc_failure_aborts_with_exit_zero
    (Args.mk "d" "main.py:1" none none "default")
    (Oracle.mk true "a@b.c" none true)
    (Location.mk "main.py" 1) rfl (by decide) rfl

/-- C2 (counterexample): an invocation whose location fails to parse
still performs a store access — `validate_debuggee_id` does its store
lookup before the location is parsed — so "without performing any call to
the remote store during that invocation" is false. -/
theorem C2_counterexample :
    parse_and_validate_location "nofile" = none ∧
    Event.storeGetDebuggee "d" ∈
      (cmd (Args.mk "d" "nofile" none none "default")
        (Oracle.mk true "a@b.c" (some "b-1") true)).1 ∧
    Event.argsParserError LOCATION_ERROR_MSG ∈
      (cmd (Args.mk "d" "nofile" none none "default")
        (Oracle.mk true "a@b.c" (some "b-1") true)).1 := by
  decide

/-- C2 (amended): when the location fails to parse, the command produces
the user-facing parser error and aborts, and no store write is performed
in that invocation (the only store access is the debuggee-validation
lookup that precedes parsing). -/
theorem C2_parse_failure_aborts_without_write (args : Args) (o : Oracle)
    (hv : o.debuggeeValid = true)
    (hp : parse_and_validate_location args.location = none) :
    Event.argsParserError LOCATION_ERROR_MSG ∈ (cmd args o).1 ∧
    (cmd args o).2 = CmdOutcome.usageExit ∧
    storeSets (cmd args o).1 = [] := by
  simp [cmd, hv, hp, storeSets]

/-- C2 witness: the amended theorem applied to a concrete invalid
location. -/
theorem C2_parse_failure_witness :
    Event.argsParserError LOCATION_ERROR_MSG ∈
      (cmd (Args.mk "d" "nofile" none none "default")
        (Oracle.mk true "a@b.c" (some "b-1") true)).1 ∧
    (cmd (Args.mk "d" "nofile" none none "default")
      (Oracle.mk true "a@b.c" (some "b-1") true)).2 = CmdOutcome.usageExit ∧
    storeSets (cmd (Args.mk "d" "nofile" none none "default")
      (Oracle.mk true "a@b.c" (some "b-1") true)).1 = [] :=
  C2_parse_failure_aborts_without_write
    (Args.mk "d" "nofile" none none "default")
    (Oracle.mk true "a@b.c" (some "b-1") true) rfl (by decide)

/-- C3 (counterexample): in the `set_snapshot main.py:42 --condition
"x>5"` run, exactly one record is written, but its `expressions` field is
absent (`if args.expression:` skips the key), not the empty sequence the
claim states. -/
theorem C3_counterexample :
    storeSets (cmd (Args.mk "d1" "main.py:42" (some "x>5") none "default")
        (Oracle.mk true "user@example.com" (some "b-0") true)).1
      = [(activePath "d1" "b-0",
          [("location", FieldValue.loc (Location.mk "main.py" 42)),
           ("userEmail", FieldValue.str "user@example.com"),
           ("createTimeUnixMsec", FieldValue.serverTimestamp),
           ("condition", FieldValue.str "x>5"),
           ("id", FieldValue.str "b-0")])] ∧
    List.lookup "expressions"
        [("location", FieldValue.loc (Location.mk "main.py" 42)),
         ("userEmail", FieldValue.str "user@example.com"),
         ("createTimeUnixMsec", FieldValue.serverTimestamp),
         ("condition", FieldValue.str "x>5"),
         ("id", FieldValue.str "b-0")] = none := by
  decide

/-- C3 (amended): running `set_snapshot main.py:42 --condition "x>5"`
with a validated debuggee and a fresh allocated id writes exactly one
record, at the active-namespace path of that id, with location
`main.py:42`, condition `x>5`, the allocated id, and no `expressions`
key (the normalized view would present it as the empty sequence). -/
theorem C3_set_snapshot_creates_one_record (d bid fmt account : String)
    (o : Oracle) (hv : o.debuggeeValid = true) (hacc : o.account = account)
    (ha : o.allocResult = some bid) (hn : o.normalizeOk = true) :
    storeSets (cmd (Args.mk d "main.py:42" (some "x>5") none fmt) o).1
      = [(activePath d bid,
          [("location", FieldValue.loc (Location.mk "main.py" 42)),
           ("userEmail", FieldValue.str account),
           ("createTimeUnixMsec", FieldValue.serverTimestamp),
           ("condition", FieldValue.str "x>5"),
           ("id", FieldValue.str bid)])] := by
  subst hacc
  have hp : parse_and_validate_location "main.py:42"
      = some (Location.mk "main.py" 42) := by decide
  have hct : condTruthy (some "x>5") = true := by decide
  have het : exprTruthy (none : Option (List String)) = false := by decide
  by_cases hf : fmt = "json" ∨ fmt = "pretty-json" <;>
    simp [cmd, hv, hp, ha, hn, hf, storeSets, buildSnapshotData, hct, het]

/-- C3 witness: the amended theorem applied to a concrete run. -/
theorem C3_set_snapshot_witness :
    storeSets (cmd (Args.mk "d1" "main.py:42" (some "x>5") none "json")
        (Oracle.mk true "user@example.com" (some "b-0") true)).1
      = [(activePath "d1" "b-0",
          [("location", FieldValue.loc (Location.mk "main.py" 42)),
           ("userEmail", FieldValue.str "user@example.com"),
           ("createTimeUnixMsec", FieldValue.serverTimestamp),
           ("condition", FieldValue.str "x>5"),
           ("id", FieldValue.str "b-0")])] :=
  C3_set_snapshot_creates_one_record "d1" "b-0" "json" "user@example.com"
    (Oracle.mk true "user@example.com" (some "b-0") true) rfl rfl rfl rfl

/-- C4: every record `set_snapshot` writes carries the server-timestamp
sentinel under `createTimeUnixMsec`, and under no other key. -/
theorem C4_server_timestamp_sentinel (args : Args) (o : Oracle)
    (path : String) (data : List (String × FieldValue))
    (hmem : (path, data) ∈ storeSets (cmd args o).1) :
    List.lookup "createTimeUnixMsec" data = some FieldValue.serverTimestamp ∧
    ∀ k v, (k, v) ∈ data → v = FieldValue.serverTimestamp →
      k = "createTimeUnixMsec" := by
  obtain ⟨l, bid, hl, hb, hpath, hdata⟩ := storeSets_cmd args o path data hmem
  subst hdata
  exact ⟨lookup_createTime l o.account args.condition args.expression bid,
    fun k v hkv hv =>
      written_sentinel_unique l o.account args.condition args.expression bid
        k v hkv hv⟩

/-- C4 witness: the sentinel lookup on a concrete written record. -/
theorem C4_server_timestamp_witness :
    List.lookup "createTimeUnixMsec"
      [("location", FieldValue.loc (Location.mk "main.py" 1)),
       ("userEmail", FieldValue.str "a@b.c"),
       ("createTimeUnixMsec", FieldValue.serverTimestamp),
       ("id", FieldValue.str "b-1")] = some FieldValue.serverTimestamp :=
  (C4_server_timestamp_sentinel (Args.mk "d" "main.py:1" none none "default")
    (Oracle.mk true "a@b.c" (some "b-1") true)
    (activePath "d" "b-1")
    [("location", FieldValue.loc (Location.mk "main.py" 1)),
     ("userEmail", FieldValue.str "a@b.c"),
     ("createTimeUnixMsec", FieldValue.serverTimestamp),
     ("id", FieldValue.str "b-1")] (by decide)).1

/-- C5: when the store write succeeds but normalization returns the nil
sentinel, `cmd` prints `CREATE_FAILED_MESSAGE` and raises
`SilentlyExitError`, which `__main__` turns into exit code 1: the
failure is never silent. -/
theorem C5_normalize_failure_visible (args : Args) (o : Oracle)
    (l : Location) (bid : String) (hv : o.debuggeeValid = true)
    (hp : parse_and_validate_location args.location = some l)
    (ha : o.allocResult = some bid) (hn : o.normalizeOk = false) :
    Event.userError CREATE_FAILED_MESSAGE ∈ (cmd args o).1 ∧
    (cmd args o).2 = CmdOutcome.silentExit ∧
    (processRun (ParsedArgs.setSnapshot args) o).2 = 1 := by
  simp [cmd, hv, hp, ha, hn, processRun, mainRun, exitCode]

/-- C5 witness: the theorem applied to a concrete failing
normalization. -/
theorem C5_normalize_failure_witness :
    Event.userError CREATE_FAILED_MESSAGE ∈
      (cmd (Args.mk "d" "main.py:1" none none "default")
        (Oracle.mk true "a@b.c" (some "b-1") false)).1 ∧
    (cmd (Args.mk "d" "main.py:1" none none "default")
      (Oracle.mk true "a@b.c" (some "b-1") false)).2 = CmdOutcome.silentExit ∧
    (processRun
      (ParsedArgs.setSnapshot (Args.mk "d" "main.py:1" none none "default"))
      (Oracle.mk true "a@b.c" (some "b-1") false)).2 = 1 :=
  C5_normalize_failure_visible (Args.mk "d" "main.py:1" none none "default")
    (Oracle.mk true "a@b.c" (some "b-1") false)
    (Location.mk "main.py" 1) "b-1" rfl (by decide) rfl rfl

/-- C6: with no subcommand bound, `main` prints the missing-argument
message to stderr and the process exits 1; any invocation whose command
returns normally exits 0. -/
theorem C6_exit_codes (o : Oracle) (pa : ParsedArgs) :
    (processRun ParsedArgs.noCommand o).1
      = [Event.printStderr MISSING_ARG_MESSAGE] ∧
    (processRun ParsedArgs.noCommand o).2 = 1 ∧
    ((mainRun pa o).2 = CmdOutcome.ok → (processRun pa o).2 = 0) := by
  refine ⟨rfl, rfl, fun h => ?_⟩
  simp [processRun, h, exitCode]

/-- C6 witness: a concrete successful invocation exits 0. -/
theorem C6_exit_codes_witness :
    (processRun
      (ParsedArgs.setSnapshot (Args.mk "d" "main.py:1" none none "default"))
      (Oracle.mk true "a@b.c" (some "b-1") true)).2 = 0 :=
  (C6_exit_codes (Oracle.mk true "a@b.c" (some "b-1") true)
    (ParsedArgs.setSnapshot (Args.mk "d" "main.py:1" none none "default"))).2.2
    (by decide)

/-- C7: the normalizer is idempotent — re-normalizing the canonical
record produced from any well-formed raw record (read back from the
namespace matching its final state) reproduces it unchanged. -/
theorem C7_normalize_idempotent (raw : RawBreakpoint) (ns : StoreNamespace)
    (bp : CanonicalBreakpoint)
    (h : normalize_breakpoint (some raw) ns = NormalizeResult.ok bp) :
    normalize_breakpoint (some (canonicalToRaw bp)) (namespaceOf bp)
      = NormalizeResult.ok bp := by
  cases hid : raw.id with
  | none => simp [normalize_breakpoint, hid] at h
  | some i =>
    simp only [normalize_breakpoint, hid, NormalizeResult.ok.injEq] at h
    subst h
    cases ns <;> simp [normalize_breakpoint, canonicalToRaw, namespaceOf]

/-- C7 witness: idempotence at a concrete well-formed raw record. -/
theorem C7_normalize_idempotent_witness :
    normalize_breakpoint
      (some (canonicalToRaw
        (CanonicalBreakpoint.mk "b1" none none [] none none false)))
      (namespaceOf (CanonicalBreakpoint.mk "b1" none none [] none none false))
      = NormalizeResult.ok
        (CanonicalBreakpoint.mk "b1" none none [] none none false) :=
  C7_normalize_idempotent
    (RawBreakpoint.mk (some "b1") none none none none none none)
    StoreNamespace.active
    (CanonicalBreakpoint.mk "b1" none none [] none none false) (by decide)

/-- C8: the location parser splits on the last colon, yields a non-empty
path and a positive line on success, and on the concrete inputs:
`main.py:10` parses to `(main.py, 10)` while `nofile` (no colon) and
`main.py:0` (non-positive line) both return the invalid sentinel. -/
theorem C8_location_parser_contract :
    parse_and_validate_location "main.py:10" = some (Location.mk "main.py" 10) ∧
    parse_and_validate_location "nofile" = none ∧
    parse_and_validate_location "main.py:0" = none ∧
    ∀ s p n, parse_and_validate_location s = some (Location.mk p n) →
      p ≠ "" ∧ 0 < n := by
  refine ⟨by decide, by decide, by decide, ?_⟩
  intro s p n h
  cases hs : splitOnLastColon s.data with
  | none => simp [parse_and_validate_location, hs] at h
  | some pr =>
    obtain ⟨pre, suf⟩ := pr
    cases hd : decimalToNat? suf with
    | none => simp [parse_and_validate_location, hs, hd] at h
    | some m =>
      simp only [parse_and_validate_location, hs, hd] at h
      split at h
      · rename_i hcond
        simp only [Option.some.injEq, Location.mk.injEq] at h
        obtain ⟨hp, hn⟩ := h
        refine ⟨?_, hn ▸ hcond.2⟩
        rw [← hp]
        intro hcon
        exact hcond.1 (by simpa using congrArg String.data hcon)
      · exact absurd h (by simp)

/-- C8 witness: the general contract instantiated at a parsed input. -/
theorem C8_location_parser_witness : "main.py" ≠ "" ∧ 0 < 10 :=
  C8_location_parser_contract.2.2.2 "main.py:10" "main.py" 10 (by decide)

/-- C9: ids claimed by the successful CAS attempts of any interleaved
schedule of concurrent allocators, starting from any counter value, are
pairwise distinct — the allocator never hands out the same id twice, no
matter how the race resolves. -/
theorem C9_concurrent_allocation_distinct (c : Nat) (ops : List CasOp) :
    ((runCasOps c ops).2.map (fun p => mkBreakpointId p.2)).Pairwise (· ≠ ·) := by
  have hlt := runCasOps_pairwise_lt c ops
  have hmap : (runCasOps c ops).2.map (fun p => mkBreakpointId p.2)
      = ((runCasOps c ops).2.map Prod.snd).map mkBreakpointId := by
    rw [List.map_map]; rfl
  rw [hmap, List.pairwise_map]
  exact hlt.imp fun hab heq => Nat.ne_of_lt hab (mkBreakpointId_injective heq)

/-- C10: the written record has a `condition` key exactly when the
condition argument is a present non-empty string, and an `expressions`
key exactly when a non-empty expression list was supplied; with no
expressions the key is omitted entirely. -/
theorem C10_optional_keys_presence (args : Args) (o : Oracle)
    (path : String) (data : List (String × FieldValue))
    (hmem : (path, data) ∈ storeSets (cmd args o).1) :
    ((∃ v, List.lookup "condition" data = some v) ↔
      ∃ c, args.condition = some c ∧ c ≠ "") ∧
    ((∃ v, List.lookup "expressions" data = some v) ↔
      ∃ el, args.expression = some el ∧ el ≠ []) ∧
    (args.expression = none → List.lookup "expressions" data = none) := by
  obtain ⟨l, bid, hl, hb, hpath, hdata⟩ := storeSets_cmd args o path data hmem
  subst hdata
  rw [lookup_condition, lookup_expressions]
  refine ⟨?_, ?_, ?_⟩
  · cases hc : args.condition with
    | none => simp [condTruthy]
    | some c =>
      by_cases hcE : c = ""
      · subst hcE; simp [condTruthy]
      · simp [condTruthy, hcE]
  · cases he : args.expression with
    | none => simp [exprTruthy]
    | some el =>
      by_cases heE : el = []
      · subst heE; simp [exprTruthy]
      · simp [exprTruthy, heE]
  · intro he
    simp [he, exprTruthy]

/-- C10 witness: a record written with no expression arguments has no
`expressions` key. -/
theorem C10_optional_keys_witness :
    List.lookup "expressions"
      [("location", FieldValue.loc (Location.mk "main.py" 1)),
       ("userEmail", FieldValue.str "a@b.c"),
       ("createTimeUnixMsec", FieldValue.serverTimestamp),
       ("id", FieldValue.str "b-1")] = none :=
  (C10_optional_keys_presence (Args.mk "d" "main.py:1" none none "default")
    (Oracle.mk true "a@b.c" (some "b-1") true)
    (activePath "d" "b-1")
    [("location", FieldValue.loc (Location.mk "main.py" 1)),
     ("userEmail", FieldValue.str "a@b.c"),
     ("createTimeUnixMsec", FieldValue.serverTimestamp),
     ("id", FieldValue.str "b-1")] (by decide)).2.2 rfl

end SnapshotDebugger
